import Mathlib

/-!
Verification of the candidate-job match scoring engine
(`utils/scoring.py`, class `MatchScorer`) and the ranking layer
(`utils/ranking_algorithm.py`, class `SmartRankingAlgorithm`).

Strings are embedded as Lean `String`; all text processing is done on
`List Char` with structurally recursive functions mirroring the Python
string operations (ASCII lowercasing, substring search, first-number
extraction).  Python floats are embedded as `ℚ`; the numeric literals
0.1/0.2/0.3/0.4/0.7/0.8 of the source are written 1/10 etc.  The
human-readable `details`/`summary` strings produced alongside each score
are not modelled; every function here returns the score component of the
source function.
-/

/-- ASCII lowercasing of a single character, as `str.lower()` acts on the
ASCII letters that appear in the scoring inputs. -/
def lowerChar (c : Char) : Char :=
  if 'A' ≤ c ∧ c ≤ 'Z' then Char.ofNat (c.toNat + 32) else c

/-- Embedding of `s.lower()` as a list of characters. -/
def lowerStr (s : String) : List Char := s.toList.map lowerChar

/-- Embedding of the Python substring test `needle in hay`. -/
def substrOf (needle : List Char) : List Char → Bool
  | [] => needle.isEmpty
  | c :: t => needle.isPrefixOf (c :: t) || substrOf needle t

namespace MatchScorer

/-! ### difflib.SequenceMatcher, as used by `_calculate_skill_set_match`

`SequenceMatcher(None, a, b).ratio()` is `2*M/T` where `T` is the total
length of the two strings and `M` is the total size of the matching
blocks found by repeatedly taking the longest matching block (earliest
in `a`, then earliest in `b`, among the longest) and recursing on the
regions to its left and to its right.  The skill strings compared here
are far below the autojunk threshold (200 characters), so the junk
machinery of difflib never kicks in. -/

/-- Length of the longest common prefix of two character lists. -/
def commonRun : List Char → List Char → Nat
  | a :: as, b :: bs => if a = b then commonRun as bs + 1 else 0
  | _, _ => 0

/-- Longest matching block of `a` and `b` as `(i, j, k)`: among all
blocks of maximal size `k`, the one with smallest `i`, then smallest
`j`, as `difflib.SequenceMatcher.find_longest_match` returns for
junk-free inputs. -/
def longestMatch (a b : List Char) : Nat × Nat × Nat :=
  (List.range a.length).foldl (fun best i =>
    (List.range b.length).foldl (fun best j =>
      let k := commonRun (a.drop i) (b.drop j)
      if k > best.2.2 then (i, j, k) else best) best) (0, 0, 0)

/-- Total size of the matching blocks of `a` and `b`
(`get_matching_blocks` recursion, with enough fuel to run to the end). -/
def matchTotalFuel : Nat → List Char → List Char → Nat
  | 0, _, _ => 0
  | fuel + 1, a, b =>
    let m := longestMatch a b
    if m.2.2 = 0 then 0
    else
      matchTotalFuel fuel (a.take m.1) (b.take m.2.1) + m.2.2 +
        matchTotalFuel fuel (a.drop (m.1 + m.2.2)) (b.drop (m.2.1 + m.2.2))

/-- Embedding of `SequenceMatcher(None, a, b).ratio()`. -/
def ratio (a b : List Char) : ℚ :=
  if a.length + b.length = 0 then 1
  else 2 * (matchTotalFuel (a.length + b.length) a b : ℚ) / (a.length + b.length)

/-! ### `_calculate_skill_set_match` and `calculate_skills_score` -/

/-- Inner-loop test of `_calculate_skill_set_match`:
`similarity > 0.8 or subset_match`. -/
def isSimilar (job_skill candidate_skill : List Char) : Bool :=
  decide (ratio job_skill candidate_skill > 8/10) ||
    substrOf job_skill candidate_skill || substrOf candidate_skill job_skill

/-- Credit a single required skill earns against the candidate list:
1 for an exact match, 0.8 when some candidate skill is similar,
0 otherwise (the loop of `_calculate_skill_set_match`, with the `break`
semantics expressed as existence). -/
def skillValue (candidate_skills : List (List Char)) (job_skill : List Char) : ℚ :=
  if job_skill ∈ candidate_skills then 1
  else if candidate_skills.any (fun c => isSimilar job_skill c) then 8/10
  else 0

/-- Score component of `_calculate_skill_set_match`:
`(len(matched) + 0.8*len(similar)) / len(job_skills) * 100`,
and 100 when no skills are required. -/
def skill_set_match_score (job_skills candidate_skills : List (List Char)) : ℚ :=
  if job_skills = [] then 100
  else ((job_skills.map (skillValue candidate_skills)).sum / job_skills.length) * 100

/-- Job skill requirements: the `technical_skills` and `soft_skills`
lists of the job data. -/
structure JobSkills where
  technical_skills : List String
  soft_skills : List String

/-- Candidate skills: the `technical` and `soft` lists. -/
structure CandidateSkills where
  technical : List String
  soft : List String

/-- Score component of `MatchScorer.calculate_skills_score`. -/
def calculate_skills_score (job : JobSkills) (cand : CandidateSkills) : ℚ :=
  let job_technical := job.technical_skills.map lowerStr
  let job_soft := job.soft_skills.map lowerStr
  let candidate_technical := cand.technical.map lowerStr
  let candidate_soft := cand.soft.map lowerStr
  if job_technical = [] ∧ job_soft = [] then 100
  else
    let tech_score := skill_set_match_score job_technical candidate_technical
    let soft_score := skill_set_match_score job_soft candidate_soft
    if job_technical ≠ [] ∧ job_soft ≠ [] then tech_score * (7/10) + soft_score * (3/10)
    else if job_technical ≠ [] then tech_score
    else soft_score

/-! ### `calculate_experience_score`

An experience entry is embedded as the string content of its `duration`
field (`some s` for a dict entry carrying `duration`, already passed
through `str`), or `none` for an entry that is not a dict or has no
`duration` key, in which case the source leaves `duration = 0` and the
`duration <= 0` fallback applies. -/

/-- Numeric value of a decimal digit. -/
def digitVal (c : Char) : Nat := c.toNat - '0'.toNat

/-- Split a character list into its leading run of decimal digits and
the rest. -/
def takeDigits : List Char → List Char × List Char
  | [] => ([], [])
  | c :: t =>
    if c.isDigit then
      let p := takeDigits t
      (c :: p.1, p.2)
    else ([], c :: t)

/-- Natural number denoted by a digit run. -/
def digitsToNat (ds : List Char) : Nat := ds.foldl (fun n c => n * 10 + digitVal c) 0

/-- First match of the regex `(\d+(?:\.\d+)?)` in the text, as the pair
(integer digits, fractional digits); the fractional part is empty when
the optional `\.\d+` group does not match. -/
def extractFirstNumberStr : List Char → Option (List Char × List Char)
  | [] => none
  | c :: t =>
    if c.isDigit then
      let p := takeDigits (c :: t)
      match p.2 with
      | '.' :: r2 =>
        let q := takeDigits r2
        if q.1 = [] then some (p.1, []) else some (p.1, q.1)
      | _ => some (p.1, [])
    else extractFirstNumberStr t

/-- Rational value of an extracted decimal number (what `float` returns
on the matched group). -/
def numberValue (ds fs : List Char) : ℚ :=
  (digitsToNat ds : ℚ) + (digitsToNat fs : ℚ) / (10 ^ fs.length)

/-- Embedding of `float(match.group(1))` over the first regex match,
`none` when the duration text holds no number. -/
def extractFirstNumber (s : List Char) : Option ℚ :=
  (extractFirstNumberStr s).map (fun p => numberValue p.1 p.2)

/-- Duration parsed from an entry before the fallback: 0 for a missing
`duration` field or a text with no number, else the first number. -/
def extractDuration (e : Option String) : ℚ :=
  match e with
  | none => 0
  | some s => (extractFirstNumber s.toList).getD 0

/-- Years one entry contributes to the total: the parsed duration, with
the `if duration <= 0: duration = 1` fallback of the source. -/
def entryYears (e : Option String) : ℚ :=
  let duration := extractDuration e
  if duration ≤ 0 then 1 else duration

/-- Total (= relevant, since every entry gets relevance 1.0) years
accumulated over the candidate entries. -/
def totalYears (entries : List (Option String)) : ℚ := (entries.map entryYears).sum

/-- Score component of `MatchScorer.calculate_experience_score`. -/
def calculate_experience_score (job_experience : ℤ) (entries : List (Option String)) : ℚ :=
  if job_experience ≤ 0 then 100
  else
    if (job_experience : ℚ) ≤ totalYears entries then 100
    else (totalYears entries / job_experience) * 100

/-! ### `calculate_education_score`

A candidate education entry is embedded as its degree string (the source
reads `edu.get('degree', '')` from dict entries and `str(edu)`
otherwise). -/

/-- The ordered education level hierarchy of the source (higher index =
higher level). -/
def educationLevels : List String :=
  ["high school",
   "associate\x27s degree", "associate degree", "associates",
   "bachelor\x27s degree", "bachelor degree", "bachelors", "b.s.", "b.a.",
   "master\x27s degree", "master degree", "masters", "m.s.", "m.a.", "mba",
   "doctorate", "doctoral", "phd", "ph.d."]

/-- Index of the first level phrase contained in the lowered requirement
text, 0 when no phrase occurs (the loop leaves `required_level = 0`). -/
def requiredLevel (job_education : String) : Nat :=
  (educationLevels.findIdx? (fun level => substrOf level.toList (lowerStr job_education))).getD 0

/-- Index of the first level phrase contained in a lowered degree text,
`none` when no phrase occurs. -/
def degreeLevelIdx (degree : String) : Option Nat :=
  educationLevels.findIdx? (fun level => substrOf level.toList (lowerStr degree))

/-- Highest level index over the candidate degrees, starting from 0
(the `highest_level` accumulation of the source). -/
def highestLevel (degrees : List String) : Nat :=
  degrees.foldl (fun h d =>
    match degreeLevelIdx d with
    | some i => if i > h then i else h
    | none => h) 0

/-- Score component of `MatchScorer.calculate_education_score`. -/
def calculate_education_score (job_education : String) (candidate_education : List String) : ℚ :=
  if job_education = "" ∨ lowerStr job_education = "not specified".toList then 100
  else
    let required_level := requiredLevel job_education
    let highest_level := highestLevel candidate_education
    if highest_level ≥ required_level then 100
    else if required_level > 0 then ((highest_level : ℚ) / required_level) * 100
    else 0

/-! ### `calculate_certification_score` -/

/-- Inner-loop test: a required certification is matched when it is a
substring of some candidate certification or vice versa. -/
def certMatched (candidate_certs : List (List Char)) (cert : List Char) : Bool :=
  candidate_certs.any (fun cc => substrOf cert cc || substrOf cc cert)

/-- Score component of `MatchScorer.calculate_certification_score`. -/
def calculate_certification_score
    (job_certifications candidate_certifications : List String) : ℚ :=
  if job_certifications = [] then 100
  else
    let job_certs := job_certifications.map lowerStr
    let candidate_certs := candidate_certifications.map lowerStr
    ((job_certs.filter (certMatched candidate_certs)).length : ℚ) / job_certs.length * 100

/-! ### `calculate_overall_score`

The input dict is embedded with one optional score per component key:
`some v` when the key is present with a `score` field of value `v`,
`none` otherwise.  The weight dict of the source is fixed:
skills 0.4, experience 0.3, education 0.2, certification 0.1. -/

/-- The four optional component scores handed to
`MatchScorer.calculate_overall_score`. -/
structure ComponentScores where
  skills_match : Option ℚ
  experience_match : Option ℚ
  education_match : Option ℚ
  certification_match : Option ℚ

/-- Contribution of one component to `weighted_sum`. -/
def optTerm (s : Option ℚ) (w : ℚ) : ℚ :=
  match s with
  | some v => v * w
  | none => 0

/-- Contribution of one component to `used_weights`. -/
def optWeight (s : Option ℚ) (w : ℚ) : ℚ :=
  match s with
  | some _ => w
  | none => 0

/-- Score component of `MatchScorer.calculate_overall_score`: weighted
sum over the components present, renormalized by the weights actually
used, 0 when no component is present. -/
def calculate_overall_score (s : ComponentScores) : ℚ :=
  let weighted_sum := optTerm s.skills_match (4/10) + optTerm s.experience_match (3/10) +
    optTerm s.education_match (2/10) + optTerm s.certification_match (1/10)
  let used_weights := optWeight s.skills_match (4/10) + optWeight s.experience_match (3/10) +
    optWeight s.education_match (2/10) + optWeight s.certification_match (1/10)
  if used_weights > 0 then weighted_sum / used_weights else 0

/-- The singleton or empty list a component contributes to the list of
present scores. -/
def optList (s : Option ℚ) : List ℚ :=
  match s with
  | some v => [v]
  | none => []

/-- The component scores present in the input, in the iteration order of
the weight dict. -/
def presentScores (s : ComponentScores) : List ℚ :=
  optList s.skills_match ++ optList s.experience_match ++
    optList s.education_match ++ optList s.certification_match

/-- Smallest element of a score list (0 for the empty list). -/
def listMin : List ℚ → ℚ
  | [] => 0
  | x :: xs => xs.foldl min x

/-- Largest element of a score list (0 for the empty list). -/
def listMax : List ℚ → ℚ
  | [] => 0
  | x :: xs => xs.foldl max x

end MatchScorer

namespace SmartRankingAlgorithm

/-- A weight assignment over the four scoring factors. -/
structure Weights where
  skills : ℚ
  experience : ℚ
  education : ℚ
  certifications : ℚ
deriving DecidableEq

/-- The default base weights of the constructor. -/
def base_weights : Weights :=
  { skills := 4/10, experience := 3/10, education := 2/10, certifications := 1/10 }

/-- Sum of the four weights. -/
def sumWeights (w : Weights) : ℚ :=
  w.skills + w.experience + w.education + w.certifications

/-- The weight adjustment of `_calculate_dynamic_weights` before the
final renormalization (source lines 74 to 95).  `job_skills_count`
stands for `len(self.job.skills_dict())` (the `JobDescription` model is
not part of the sources; only this count reaches the algorithm) and
`required_experience` for `self.job.required_experience`.  Rule 1 adds
0.1 to the skills weight and rescales the other three from the base
weights; Rule 2 adds 0.1 to the current experience weight and rescales
the other three from the base weights again. -/
def adjustedWeightsPre (base : Weights) (job_skills_count : ℕ)
    (required_experience : ℤ) : Weights :=
  let w1 :=
    if job_skills_count > 5 then
      let s := base.skills + 1/10
      let factor := (1 - s) / (1 - base.skills)
      { skills := s, experience := base.experience * factor,
        education := base.education * factor,
        certifications := base.certifications * factor }
    else base
  if required_experience > 5 then
    let e := w1.experience + 1/10
    let factor := (1 - e) / (1 - base.experience)
    { skills := base.skills * factor, experience := e,
      education := base.education * factor,
      certifications := base.certifications * factor }
  else w1

/-- Embedding of `_calculate_dynamic_weights`: the two adjustment rules
followed by the guarded renormalization of source lines 97 to 100. -/
def calculate_dynamic_weights (base : Weights) (job_skills_count : ℕ)
    (required_experience : ℤ) : Weights :=
  let w := adjustedWeightsPre base job_skills_count required_experience
  let total := sumWeights w
  if total > 0 then
    { skills := w.skills / total, experience := w.experience / total,
      education := w.education / total, certifications := w.certifications / total }
  else w

/-- Modelled from the spec (section 4.6), for comparison with the code:
the variant in which Rule 2 rescales the remaining three weights from
the already-Rule-1-adjusted weights rather than from the original base
weights. -/
def dynamic_weights_specChained (base : Weights) (job_skills_count : ℕ)
    (required_experience : ℤ) : Weights :=
  let w1 :=
    if job_skills_count > 5 then
      let s := base.skills + 1/10
      let factor := (1 - s) / (1 - base.skills)
      { skills := s, experience := base.experience * factor,
        education := base.education * factor,
        certifications := base.certifications * factor }
    else base
  let w2 :=
    if required_experience > 5 then
      let e := w1.experience + 1/10
      let factor := (1 - e) / (1 - w1.experience)
      { skills := w1.skills * factor, experience := e,
        education := w1.education * factor,
        certifications := w1.certifications * factor }
    else w1
  let total := sumWeights w2
  if total > 0 then
    { skills := w2.skills / total, experience := w2.experience / total,
      education := w2.education / total, certifications := w2.certifications / total }
  else w2

/-- One stored `MatchScore` row for the job: the four component scores
of a candidate. -/
structure MatchScoreRow where
  skills_score : ℚ
  experience_score : ℚ
  education_score : ℚ
  certifications_score : ℚ
deriving DecidableEq

/-- Embedding of `_calculate_weighted_score`. -/
def _calculate_weighted_score (w : Weights) (m : MatchScoreRow) : ℚ :=
  m.skills_score * w.skills + m.experience_score * w.experience +
    m.education_score * w.education + m.certifications_score * w.certifications

/-- The candidate entry assembled by `rank_candidates` for one match row
(score fields only; the identity fields play no role in the ordering). -/
structure CandidateEntry where
  overall_score : ℚ
  skills_score : ℚ
  experience_score : ℚ
  education_score : ℚ
  certifications_score : ℚ
deriving DecidableEq

/-- The `candidates_with_scores` list built by `rank_candidates`, in the
order the match rows arrive. -/
def candidateEntries (w : Weights) (matchRows : List MatchScoreRow) : List CandidateEntry :=
  matchRows.map (fun m =>
    { overall_score := _calculate_weighted_score w m,
      skills_score := m.skills_score,
      experience_score := m.experience_score,
      education_score := m.education_score,
      certifications_score := m.certifications_score })

/-- The sort order of `rank_candidates`: descending `overall_score`. -/
def rankedByOverall (a b : CandidateEntry) : Prop :=
  b.overall_score ≤ a.overall_score

instance : DecidableRel rankedByOverall :=
  fun a b => inferInstanceAs (Decidable (b.overall_score ≤ a.overall_score))

/-- Embedding of the list produced by `rank_candidates`:
`sorted(candidates_with_scores, key=lambda x: x['overall_score'],
reverse=True)`.  Python `sorted` with `reverse=True` is the stable
descending sort by the key, which is exactly the insertion sort under
`rankedByOverall` (on a tie the element earlier in the input stays
first). -/
def rank_candidates (w : Weights) (matchRows : List MatchScoreRow) : List CandidateEntry :=
  List.insertionSort rankedByOverall (candidateEntries w matchRows)

/-- Match rows used in the ranking tie examples: equal weighted overall
score under the default weights, distinct skills scores. -/
def rowA : MatchScoreRow :=
  { skills_score := 50, experience_score := 50, education_score := 50,
    certifications_score := 50 }

/-- Second tie example row: same overall score as `rowA` under the
default weights, but a higher skills score. -/
def rowB : MatchScoreRow :=
  { skills_score := 60, experience_score := 40, education_score := 45,
    certifications_score := 50 }

/-- The candidate entry `rank_candidates` builds from `rowA` under the
default weights. -/
def entryA : CandidateEntry :=
  { overall_score := 50, skills_score := 50, experience_score := 50,
    education_score := 50, certifications_score := 50 }

/-- The candidate entry `rank_candidates` builds from `rowB` under the
default weights. -/
def entryB : CandidateEntry :=
  { overall_score := 50, skills_score := 60, experience_score := 40,
    education_score := 45, certifications_score := 50 }

end SmartRankingAlgorithm

open MatchScorer SmartRankingAlgorithm

instance : IsTotal CandidateEntry rankedByOverall :=
  ⟨fun a b => le_total b.overall_score a.overall_score⟩

instance : IsTrans CandidateEntry rankedByOverall :=
  ⟨fun _ _ _ h1 h2 => le_trans h2 h1⟩

/-! ## Helper lemmas shared by the claim theorems -/

lemma entryYears_pos (e : Option String) : 0 < entryYears e := by
  rw [entryYears]
  split_ifs with h
  · norm_num
  · linarith [not_le.mp h]

lemma totalYears_nonneg (entries : List (Option String)) : 0 ≤ totalYears entries := by
  induction entries with
  | nil => simp [totalYears]
  | cons e t ih =>
    rw [totalYears, List.map_cons, List.sum_cons]
    have := entryYears_pos e
    rw [totalYears] at ih
    linarith

lemma skillValue_append_le (cs : List (List Char)) (c s : List Char) :
    skillValue cs s ≤ skillValue (cs ++ [c]) s := by
  rw [skillValue, skillValue]
  by_cases h1 : s ∈ cs
  · rw [if_pos h1, if_pos (List.mem_append_left _ h1)]
  · rw [if_neg h1]
    by_cases h2 : s ∈ cs ++ [c]
    · rw [if_pos h2]
      split_ifs <;> norm_num
    · rw [if_neg h2]
      by_cases h3 : cs.any (fun x => isSimilar s x)
      · rw [if_pos h3, if_pos (by simp only [List.any_append, h3, Bool.true_or])]
      · rw [if_neg h3]
        split_ifs <;> norm_num

lemma mapSum_le {α : Type} (l : List α) (f g : α → ℚ) (h : ∀ x ∈ l, f x ≤ g x) :
    (l.map f).sum ≤ (l.map g).sum := by
  induction l with
  | nil => simp
  | cons a t ih =>
    simp only [List.map_cons, List.sum_cons]
    exact add_le_add (h a (by simp)) (ih fun x hx => h x (by simp [hx]))

lemma skill_set_match_score_append (job cs : List (List Char)) (c : List Char) :
    skill_set_match_score job cs ≤ skill_set_match_score job (cs ++ [c]) := by
  rw [skill_set_match_score, skill_set_match_score]
  split_ifs with h
  · exact le_refl _
  · have hsum := mapSum_le job (skillValue cs) (skillValue (cs ++ [c]))
      (fun s _ => skillValue_append_le cs c s)
    gcongr

lemma skills_score_append_tech (job : JobSkills) (ct cs : List String) (c : String) :
    calculate_skills_score job ⟨ct, cs⟩ ≤ calculate_skills_score job ⟨ct ++ [c], cs⟩ := by
  rw [calculate_skills_score, calculate_skills_score]
  simp only [List.map_append, List.map_cons, List.map_nil]
  have hmono := skill_set_match_score_append (job.technical_skills.map lowerStr)
    (ct.map lowerStr) (lowerStr c)
  split_ifs with hempty hboth htech
  · exact le_refl _
  · nlinarith [hmono]
  · exact hmono
  · exact le_refl _

lemma skills_score_append_soft (job : JobSkills) (ct cs : List String) (c : String) :
    calculate_skills_score job ⟨ct, cs⟩ ≤ calculate_skills_score job ⟨ct, cs ++ [c]⟩ := by
  rw [calculate_skills_score, calculate_skills_score]
  simp only [List.map_append, List.map_cons, List.map_nil]
  have hmono := skill_set_match_score_append (job.soft_skills.map lowerStr)
    (cs.map lowerStr) (lowerStr c)
  split_ifs with hempty hboth htech
  · exact le_refl _
  · nlinarith [hmono]
  · exact le_refl _
  · exact hmono

lemma entryYears_int3 : entryYears (some "3 years") = 3 := by
  have hs : extractFirstNumberStr "3 years".toList = some (['3'], []) := by decide
  have d3 : digitsToNat ['3'] = 3 := by decide
  have d0 : digitsToNat ([] : List Char) = 0 := by decide
  rw [entryYears, extractDuration, extractFirstNumber, hs]
  simp only [Option.map, Option.getD]
  rw [numberValue, d3, d0]
  norm_num

lemma entryYears_int2 : entryYears (some "2 years") = 2 := by
  have hs : extractFirstNumberStr "2 years".toList = some (['2'], []) := by decide
  have d2 : digitsToNat ['2'] = 2 := by decide
  have d0 : digitsToNat ([] : List Char) = 0 := by decide
  rw [entryYears, extractDuration, extractFirstNumber, hs]
  simp only [Option.map, Option.getD]
  rw [numberValue, d2, d0]
  norm_num

lemma totalYears_three_two : totalYears [some "3 years", some "2 years"] = 5 := by
  rw [totalYears, List.map_cons, List.map_cons, List.map_nil, List.sum_cons, List.sum_cons,
    List.sum_nil, entryYears_int3, entryYears_int2]
  norm_num

lemma entryYears_half : entryYears (some "0.5 years") = 1/2 := by
  have hs : extractFirstNumberStr "0.5 years".toList = some (['0'], ['5']) := by decide
  have d5 : digitsToNat ['5'] = 5 := by decide
  have d0 : digitsToNat ['0'] = 0 := by decide
  rw [entryYears, extractDuration, extractFirstNumber, hs]
  simp only [Option.map, Option.getD]
  rw [numberValue, d5, d0]
  norm_num

lemma scenarioC_eval : calculate_education_score "Bachelor\x27s degree in Computer Science"
    ["Master of Science in Computer Science", "Bachelor of Science in Computer Engineering"]
    = 0 := by
  have h1 : requiredLevel "Bachelor\x27s degree in Computer Science" = 4 := by decide
  have h2 : highestLevel ["Master of Science in Computer Science",
      "Bachelor of Science in Computer Engineering"] = 0 := by decide
  have h3 : ¬ ("Bachelor\x27s degree in Computer Science" = "" ∨
      lowerStr "Bachelor\x27s degree in Computer Science" = "not specified".toList) := by decide
  rw [calculate_education_score, if_neg h3, h1, h2]
  norm_num

lemma code_weights_six_seven : calculate_dynamic_weights base_weights 6 7 =
    { skills := 13/35, experience := 7/20, education := 13/70, certifications := 13/140 } := by
  norm_num [calculate_dynamic_weights, adjustedWeightsPre, base_weights, sumWeights,
    Weights.mk.injEq]

lemma spec_weights_six_seven : dynamic_weights_specChained base_weights 6 7 =
    { skills := 13/30, experience := 7/20, education := 13/90, certifications := 13/180 } := by
  norm_num [dynamic_weights_specChained, base_weights, sumWeights, Weights.mk.injEq]

/-! ## Claim theorems -/

/-- C1 (amended): `rank_candidates` returns the candidate entries sorted
descending by overall weighted score; the sort is stable, so candidates
with equal overall score keep their input order (there is no secondary
tie-break on skills, experience or education score); the output is a
permutation of the entries built from the match rows, and any pair in
input order whose first element has overall score at least that of the
second stays in that order.  The order is deterministic, never random. -/
theorem rank_candidates_sorted_descending_stable (w : Weights) (rows : List MatchScoreRow) :
    (rank_candidates w rows).Sorted rankedByOverall ∧
    (rank_candidates w rows).Perm (candidateEntries w rows) ∧
    ∀ a b : CandidateEntry, rankedByOverall a b →
      [a, b].Sublist (candidateEntries w rows) →
      [a, b].Sublist (rank_candidates w rows) := by
  refine ⟨?_, ?_, ?_⟩
  · exact List.sorted_insertionSort rankedByOverall _
  · exact List.perm_insertionSort rankedByOverall _
  · intro a b hab hsub
    exact List.pair_sublist_insertionSort hab hsub

/-- C1 (witness): the ranking of the two concrete tie rows is sorted
descending and keeps the tied pair in input order. -/
theorem rank_candidates_sorted_descending_stable_witness :
    (rank_candidates base_weights [rowA, rowB]).Sorted rankedByOverall ∧
    [entryA, entryB].Sublist (rank_candidates base_weights [rowA, rowB]) :=
  ⟨(rank_candidates_sorted_descending_stable base_weights [rowA, rowB]).1,
   (rank_candidates_sorted_descending_stable base_weights [rowA, rowB]).2.2 entryA entryB
     (by norm_num [rankedByOverall, entryA, entryB])
     (by
       have hce : candidateEntries base_weights [rowA, rowB] = [entryA, entryB] := by
         norm_num [candidateEntries, _calculate_weighted_score, base_weights, rowA, rowB,
           entryA, entryB, CandidateEntry.mk.injEq]
       rw [hce])⟩

/-- C1 (counterexample): two candidates with equal overall score under
the default weights, where the second has the higher skills score; the
claimed tie-break would put the higher-skills candidate first, but
`rank_candidates` keeps the input order. -/
theorem rank_candidates_tie_no_skills_tiebreak :
    _calculate_weighted_score base_weights rowA = _calculate_weighted_score base_weights rowB ∧
    rowA.skills_score < rowB.skills_score ∧
    rank_candidates base_weights [rowA, rowB] = [entryA, entryB] ∧
    entryA.overall_score = entryB.overall_score ∧
    entryA.skills_score < entryB.skills_score := by
  refine ⟨by norm_num [_calculate_weighted_score, base_weights, rowA, rowB], ?_, ?_, ?_, ?_⟩
  · norm_num [rowA, rowB]
  · have hce : candidateEntries base_weights [rowA, rowB] = [entryA, entryB] := by
      norm_num [candidateEntries, _calculate_weighted_score, base_weights, rowA, rowB,
        entryA, entryB, CandidateEntry.mk.injEq]
    rw [rank_candidates, hce]
    norm_num [List.insertionSort, List.orderedInsert, rankedByOverall, entryA, entryB]
  · norm_num [entryA, entryB]
  · norm_num [entryA, entryB]

/-- C2 (amended): for required education "Bachelor.s degree in Computer
Science" and the two candidate degrees of Scenario C,
`calculate_education_score` returns 0, not 100: the requirement resolves
to level index 4, but neither degree text contains any phrase of the
education scale (the scale has no "master of science" or "bachelor of
science" form), so the candidate highest level resolves to 0, below the
required level. -/
theorem scenarioC_education_score_zero :
    requiredLevel "Bachelor\x27s degree in Computer Science" = 4 ∧
    degreeLevelIdx "Master of Science in Computer Science" = none ∧
    degreeLevelIdx "Bachelor of Science in Computer Engineering" = none ∧
    highestLevel ["Master of Science in Computer Science",
      "Bachelor of Science in Computer Engineering"] = 0 ∧
    calculate_education_score "Bachelor\x27s degree in Computer Science"
      ["Master of Science in Computer Science", "Bachelor of Science in Computer Engineering"]
      = 0 :=
  ⟨by decide, by decide, by decide, by decide, scenarioC_eval⟩

/-- C2 (counterexample): on the Scenario C inputs the education score is
not 100 as claimed. -/
theorem scenarioC_education_score_not_100 :
    calculate_education_score "Bachelor\x27s degree in Computer Science"
      ["Master of Science in Computer Science", "Bachelor of Science in Computer Engineering"]
      ≠ 100 := by
  rw [scenarioC_eval]
  norm_num

/-- C3 (amended): for the default base weights, a job with 6 skills and
required experience 7, both rules fire: Rule 1 first, then Rule 2 adds
0.1 to the Rule-1-adjusted experience weight but rescales skills,
education and certifications from the ORIGINAL base weights, discarding
the Rule 1 skills increase.  The result (13/35, 7/20, 13/70, 13/140)
sums to 1.0 with experience increased but skills decreased relative to
the base, education and certifications decreased, and skills and
experience still above education and certifications. -/
theorem dynamic_weights_both_rules_result :
    calculate_dynamic_weights base_weights 6 7 =
      { skills := 13/35, experience := 7/20, education := 13/70, certifications := 13/140 } ∧
    sumWeights (calculate_dynamic_weights base_weights 6 7) = 1 ∧
    base_weights.experience < (calculate_dynamic_weights base_weights 6 7).experience ∧
    (calculate_dynamic_weights base_weights 6 7).skills < base_weights.skills ∧
    (calculate_dynamic_weights base_weights 6 7).education < base_weights.education ∧
    (calculate_dynamic_weights base_weights 6 7).certifications < base_weights.certifications ∧
    (calculate_dynamic_weights base_weights 6 7).education <
      (calculate_dynamic_weights base_weights 6 7).skills ∧
    (calculate_dynamic_weights base_weights 6 7).certifications <
      (calculate_dynamic_weights base_weights 6 7).experience := by
  rw [code_weights_six_seven]
  refine ⟨rfl, ?_, ?_, ?_, ?_, ?_, ?_, ?_⟩ <;> norm_num [sumWeights, base_weights]

/-- C3 (counterexample): the code result differs from the weights
mandated by the claim (Rule 2 shrinking from the already-Rule-1-adjusted
weights), and the skills weight ends up below its base value instead of
increased. -/
theorem dynamic_weights_rule2_not_chained :
    calculate_dynamic_weights base_weights 6 7 ≠ dynamic_weights_specChained base_weights 6 7 ∧
    (calculate_dynamic_weights base_weights 6 7).skills < base_weights.skills := by
  rw [code_weights_six_seven, spec_weights_six_seven]
  constructor
  · simp only [ne_eq, Weights.mk.injEq, not_and]
    intro hsk
    norm_num at hsk
  · norm_num [base_weights]

/-- C4 (amended): whenever the pre-renormalization total of the four
adjusted weights is positive — in particular for the default base
weights under every job shape — the weight set returned by
`calculate_dynamic_weights` sums to exactly 1 (so certainly within 1e-6
of 1.0); when the total is not positive the renormalization is skipped
and the sum can stay away from 1. -/
theorem dynamic_weights_sum_one (base : Weights) (n : ℕ) (e : ℤ)
    (h : 0 < sumWeights (adjustedWeightsPre base n e)) :
    sumWeights (calculate_dynamic_weights base n e) = 1 := by
  rw [calculate_dynamic_weights]
  simp only [if_pos h]
  rw [sumWeights]
  simp only
  rw [div_add_div_same, div_add_div_same, div_add_div_same, ← sumWeights, div_self (ne_of_gt h)]

/-- C4 (witness): the default base weights with 6 skills and required
experience 7 have positive adjusted total and renormalize to sum 1. -/
theorem dynamic_weights_sum_one_witness :
    0 < sumWeights (adjustedWeightsPre base_weights 6 7) ∧
    sumWeights (calculate_dynamic_weights base_weights 6 7) = 1 :=
  ⟨by norm_num [adjustedWeightsPre, base_weights, sumWeights],
   dynamic_weights_sum_one base_weights 6 7
     (by norm_num [adjustedWeightsPre, base_weights, sumWeights])⟩

/-- C4 (counterexample): with an all-zero caller-supplied base weight
set and a job firing no rule, the adjusted total is 0, the
renormalization guard skips, and the returned sum is 0, not within 1e-6
of 1.0. -/
theorem dynamic_weights_zero_base_sum_not_one :
    ¬ |sumWeights (calculate_dynamic_weights
        { skills := 0, experience := 0, education := 0, certifications := 0 } 0 0) - 1|
      < 1/1000000 := by
  have h : sumWeights (calculate_dynamic_weights
      { skills := 0, experience := 0, education := 0, certifications := 0 } 0 0) = 0 := by
    norm_num [calculate_dynamic_weights, adjustedWeightsPre, sumWeights]
  rw [h]
  norm_num

/-- C5 (amended): when the required-education text is non-empty, not
"not specified", and resolves to level index 0 on the education scale,
`calculate_education_score` performs no division at all and returns 100
for EVERY candidate (the candidate highest level, a natural number, is
always at least 0, so the met-requirement branch fires); it never
returns 0 here. -/
theorem education_required_level_zero_scores_100 (job_education : String)
    (entries : List String)
    (h1 : job_education ≠ "")
    (h2 : lowerStr job_education ≠ "not specified".toList)
    (h3 : requiredLevel job_education = 0) :
    calculate_education_score job_education entries = 100 := by
  rw [calculate_education_score, if_neg (by push_neg; exact ⟨h1, h2⟩), h3]
  simp

/-- C5 (witness): a concrete requirement resolving to level 0 scores 100
for a candidate with no degrees. -/
theorem education_required_level_zero_scores_100_witness :
    ("Technical Diploma" ≠ "" ∧
      lowerStr "Technical Diploma" ≠ "not specified".toList ∧
      requiredLevel "Technical Diploma" = 0) ∧
    calculate_education_score "Technical Diploma" [] = 100 :=
  ⟨⟨by decide, by decide, by decide⟩,
   education_required_level_zero_scores_100 "Technical Diploma" []
     (by decide) (by decide) (by decide)⟩

/-- C5 (counterexample): a non-empty requirement that resolves to level
0, against a candidate whose highest level is 17 (not 0): the claim says
the score is 0, but the code returns 100. -/
theorem education_required_level_zero_not_zero_score :
    "Some College Degree" ≠ "" ∧
    lowerStr "Some College Degree" ≠ "not specified".toList ∧
    requiredLevel "Some College Degree" = 0 ∧
    highestLevel ["PhD"] = 17 ∧
    calculate_education_score "Some College Degree" ["PhD"] = 100 ∧
    calculate_education_score "Some College Degree" ["PhD"] ≠ 0 := by
  have h3 : ¬ ("Some College Degree" = "" ∨
      lowerStr "Some College Degree" = "not specified".toList) := by decide
  have h1 : requiredLevel "Some College Degree" = 0 := by decide
  have hs : calculate_education_score "Some College Degree" ["PhD"] = 100 := by
    rw [calculate_education_score, if_neg h3, h1]
    simp
  exact ⟨by decide, by decide, h1, by decide, hs, by rw [hs]; norm_num⟩

/-- C6: with both required skill lists empty, `calculate_skills_score`
returns 100 for every candidate, and with the required certification
list empty, `calculate_certification_score` returns 100 for every
candidate (vacuous-match invariant). -/
theorem empty_requirements_score_100 (ct cs certs : List String) :
    calculate_skills_score ⟨[], []⟩ ⟨ct, cs⟩ = 100 ∧
    calculate_certification_score [] certs = 100 := by
  constructor
  · simp [calculate_skills_score]
  · simp [calculate_certification_score]

/-- C7: `calculate_experience_score` returns 100 when the required years
are at most 0; for positive requirements it returns 100 when the
accumulated years reach the requirement and (total/required)*100
otherwise; the result always lies in [0, 100]. -/
theorem experience_score_formula_and_bounds (req : ℤ) (entries : List (Option String)) :
    (req ≤ 0 → calculate_experience_score req entries = 100) ∧
    (0 < req →
      ((req : ℚ) ≤ totalYears entries → calculate_experience_score req entries = 100) ∧
      (totalYears entries < req →
        calculate_experience_score req entries = totalYears entries / req * 100)) ∧
    0 ≤ calculate_experience_score req entries ∧
    calculate_experience_score req entries ≤ 100 := by
  have hnn : 0 ≤ totalYears entries := totalYears_nonneg entries
  refine ⟨fun h => ?_, fun hpos => ?_, ?_⟩
  · rw [calculate_experience_score, if_pos h]
  · have h0 : ¬ req ≤ 0 := not_le.mpr hpos
    constructor
    · intro hge
      rw [calculate_experience_score, if_neg h0, if_pos hge]
    · intro hlt
      rw [calculate_experience_score, if_neg h0, if_neg (not_le.mpr hlt)]
  · rw [calculate_experience_score]
    split_ifs with h1 h2
    · norm_num
    · norm_num
    · have hq : (0 : ℚ) < (req : ℚ) := by
        have : (0 : ℤ) < req := by omega
        exact_mod_cast this
      constructor
      · apply mul_nonneg (div_nonneg hnn hq.le) (by norm_num)
      · have hr : totalYears entries / (req : ℚ) < 1 := (div_lt_one hq).mpr (not_le.mp h2)
        nlinarith [hr]

/-- C7 (witness): Scenario B — required 5 years, entries of 3 and 2
years sum to exactly 5 and score 100. -/
theorem experience_score_formula_and_bounds_witness :
    (0 : ℤ) < 5 ∧ (5 : ℚ) ≤ totalYears [some "3 years", some "2 years"] ∧
    calculate_experience_score 5 [some "3 years", some "2 years"] = 100 :=
  ⟨by norm_num, by rw [totalYears_three_two],
   ((experience_score_formula_and_bounds 5 [some "3 years", some "2 years"]).2.1
       (by norm_num)).1 (by rw [totalYears_three_two]; norm_num)⟩

/-- C8: the overall score is the weights-normalized combination of the
components present: it always lies between the smallest and largest
component score supplied, and is 0 when no component is present. -/
theorem overall_score_within_component_bounds (s : ComponentScores) :
    (presentScores s = [] → calculate_overall_score s = 0) ∧
    (presentScores s ≠ [] →
      listMin (presentScores s) ≤ calculate_overall_score s ∧
      calculate_overall_score s ≤ listMax (presentScores s)) := by
  obtain ⟨sk, ex, ed, ce⟩ := s
  rcases sk with _ | a <;> rcases ex with _ | b <;> rcases ed with _ | c <;> rcases ce with _ | d <;>
    refine ⟨fun h => ?_, fun h => ?_⟩ <;>
    simp only [presentScores, optList, List.cons_append, List.nil_append, List.append_nil,
      listMin, listMax, List.foldl_cons, List.foldl_nil, ne_eq] at h ⊢ <;>
    (try exact absurd h (List.cons_ne_nil _ _)) <;>
    rw [calculate_overall_score] <;>
    simp only [optTerm, optWeight] <;>
    (try (norm_num; done)) <;>
    rw [if_pos (by norm_num)] <;>
    constructor
  · rw [le_div_iff₀ (by norm_num)]
    nlinarith [min_le_left c d, min_le_right c d]
  · rw [div_le_iff₀ (by norm_num)]
    nlinarith [le_max_left c d, le_max_right c d]
  · rw [le_div_iff₀ (by norm_num)]
    nlinarith [min_le_left b d, min_le_right b d]
  · rw [div_le_iff₀ (by norm_num)]
    nlinarith [le_max_left b d, le_max_right b d]
  · rw [le_div_iff₀ (by norm_num)]
    nlinarith [min_le_left b c, min_le_right b c]
  · rw [div_le_iff₀ (by norm_num)]
    nlinarith [le_max_left b c, le_max_right b c]
  · rw [le_div_iff₀ (by norm_num)]
    nlinarith [min_le_left (min b c) d, min_le_right (min b c) d,
      min_le_left b c, min_le_right b c]
  · rw [div_le_iff₀ (by norm_num)]
    nlinarith [le_max_left (max b c) d, le_max_right (max b c) d,
      le_max_left b c, le_max_right b c]
  · rw [le_div_iff₀ (by norm_num)]
    nlinarith [min_le_left a d, min_le_right a d]
  · rw [div_le_iff₀ (by norm_num)]
    nlinarith [le_max_left a d, le_max_right a d]
  · rw [le_div_iff₀ (by norm_num)]
    nlinarith [min_le_left a c, min_le_right a c]
  · rw [div_le_iff₀ (by norm_num)]
    nlinarith [le_max_left a c, le_max_right a c]
  · rw [le_div_iff₀ (by norm_num)]
    nlinarith [min_le_left (min a c) d, min_le_right (min a c) d,
      min_le_left a c, min_le_right a c]
  · rw [div_le_iff₀ (by norm_num)]
    nlinarith [le_max_left (max a c) d, le_max_right (max a c) d,
      le_max_left a c, le_max_right a c]
  · rw [le_div_iff₀ (by norm_num)]
    nlinarith [min_le_left a b, min_le_right a b]
  · rw [div_le_iff₀ (by norm_num)]
    nlinarith [le_max_left a b, le_max_right a b]
  · rw [le_div_iff₀ (by norm_num)]
    nlinarith [min_le_left (min a b) d, min_le_right (min a b) d,
      min_le_left a b, min_le_right a b]
  · rw [div_le_iff₀ (by norm_num)]
    nlinarith [le_max_left (max a b) d, le_max_right (max a b) d,
      le_max_left a b, le_max_right a b]
  · rw [le_div_iff₀ (by norm_num)]
    nlinarith [min_le_left (min a b) c, min_le_right (min a b) c,
      min_le_left a b, min_le_right a b]
  · rw [div_le_iff₀ (by norm_num)]
    nlinarith [le_max_left (max a b) c, le_max_right (max a b) c,
      le_max_left a b, le_max_right a b]
  · rw [le_div_iff₀ (by norm_num)]
    nlinarith [min_le_left (min (min a b) c) d, min_le_right (min (min a b) c) d,
      min_le_left (min a b) c, min_le_right (min a b) c,
      min_le_left a b, min_le_right a b]
  · rw [div_le_iff₀ (by norm_num)]
    nlinarith [le_max_left (max (max a b) c) d, le_max_right (max (max a b) c) d,
      le_max_left (max a b) c, le_max_right (max a b) c,
      le_max_left a b, le_max_right a b]

/-- C8 (witness): with skills 80 and experience 60 present, the overall
score lies between 60 and 80. -/
theorem overall_score_within_component_bounds_witness :
    presentScores ⟨some 80, some 60, none, none⟩ ≠ [] ∧
    (listMin (presentScores ⟨some 80, some 60, none, none⟩) ≤
        calculate_overall_score ⟨some 80, some 60, none, none⟩ ∧
      calculate_overall_score ⟨some 80, some 60, none, none⟩ ≤
        listMax (presentScores ⟨some 80, some 60, none, none⟩)) :=
  ⟨by simp [presentScores, optList],
   (overall_score_within_component_bounds ⟨some 80, some 60, none, none⟩).2
     (by simp [presentScores, optList])⟩

/-- C9: appending to the candidate skill list (technical or soft) a
skill whose normalized form equals one of the required skills never
decreases the skills component score, all other inputs held fixed. -/
theorem adding_required_skill_never_decreases_score (job : JobSkills)
    (ct cs : List String) (c : String)
    (_h : lowerStr c ∈ job.technical_skills.map lowerStr ∨
      lowerStr c ∈ job.soft_skills.map lowerStr) :
    calculate_skills_score job ⟨ct, cs⟩ ≤ calculate_skills_score job ⟨ct ++ [c], cs⟩ ∧
    calculate_skills_score job ⟨ct, cs⟩ ≤ calculate_skills_score job ⟨ct, cs ++ [c]⟩ :=
  ⟨skills_score_append_tech job ct cs c, skills_score_append_soft job ct cs c⟩

/-- C9 (witness): adding the required skill Python to an empty candidate
technical list does not decrease the skills score. -/
theorem adding_required_skill_never_decreases_score_witness :
    (lowerStr "Python" ∈ (JobSkills.mk ["Python"] []).technical_skills.map lowerStr ∨
      lowerStr "Python" ∈ (JobSkills.mk ["Python"] []).soft_skills.map lowerStr) ∧
    calculate_skills_score ⟨["Python"], []⟩ ⟨[], []⟩ ≤
      calculate_skills_score ⟨["Python"], []⟩ ⟨[] ++ ["Python"], []⟩ :=
  ⟨by decide,
   (adding_required_skill_never_decreases_score ⟨["Python"], []⟩ [] [] "Python" (by decide)).1⟩

/-- C10 (amended): an entry whose duration text contains no number,
whose first number parses to 0, or which lacks a duration field (parsed
duration at most 0) contributes exactly 1.0 year; every entry
contributes a strictly positive amount, namely its first parsed number
whenever that is positive — which may be less than 1 year, so the total
need not reach the number of entries. -/
theorem entry_years_fallback_positive (e : Option String) :
    (extractDuration e ≤ 0 → entryYears e = 1) ∧
    0 < entryYears e ∧
    (0 < extractDuration e → entryYears e = extractDuration e) :=
  ⟨fun h => by rw [entryYears, if_pos h],
   entryYears_pos e,
   fun h => by rw [entryYears, if_neg (not_le.mpr h)]⟩

/-- C10 (witness): an entry with no duration field contributes exactly
1.0 year and a positive amount. -/
theorem entry_years_fallback_positive_witness :
    extractDuration (none : Option String) ≤ 0 ∧
    entryYears (none : Option String) = 1 ∧
    0 < entryYears (none : Option String) :=
  ⟨by rw [extractDuration],
   (entry_years_fallback_positive none).1 (by rw [extractDuration]),
   (entry_years_fallback_positive none).2.1⟩

/-- C10 (counterexample): an entry with duration text "0.5 years"
contributes 0.5 year, less than 1.0; a candidate with 1 entry and
required years 1 scores 50, not 100, refuting that the entry count
reaching the required years forces score 100. -/
theorem fractional_duration_below_one_year :
    entryYears (some "0.5 years") = 1/2 ∧
    ¬ (1 ≤ entryYears (some "0.5 years")) ∧
    calculate_experience_score 1 [some "0.5 years"] = 50 ∧
    calculate_experience_score 1 [some "0.5 years"] ≠ 100 := by
  have ht : totalYears [some "0.5 years"] = 1/2 := by
    rw [totalYears, List.map_cons, List.map_nil, List.sum_cons, List.sum_nil, entryYears_half]
    norm_num
  have hs : calculate_experience_score 1 [some "0.5 years"] = 50 := by
    rw [calculate_experience_score, if_neg (by norm_num), if_neg (by rw [ht]; norm_num), ht]
    norm_num
  exact ⟨entryYears_half, by rw [entryYears_half]; norm_num, hs, by rw [hs]; norm_num⟩
